import Mathlib

/-!
Shallow embedding of the data-analysis chat application in src/main.py.

The program is a single Python file: a DataAnalyzer class holding an API
credential, a provider identifier and an optional loaded data frame, plus an
interactive main loop that keeps an append-only chat history and executes
fenced Python code found in assistant messages.

Modelling conventions:
- a pandas DataFrame is modelled by its column-name list and its row count
  (its shape is the pair of row count and column count);
- Python exceptions are modelled with Except String; a try/except block
  becomes a match on the Except value;
- the network (requests.post followed by response.json()) is an oracle of
  type Request -> Except String Json supplied as a parameter; each provider
  call returns the list of requests it issued together with the Except
  outcome, so that the number of attempts is observable;
- JSON values are a small inductive type; Python subscription on a parsed
  response (resp[key], resp[i]) is modelled by total getters returning
  Except, with a KeyError / IndexError style message on a miss;
- the extracted assistant content is assumed to be a JSON string (asString);
- Python str.split(sep) is modelled on lists of characters by pysplit, a
  fuel-based leftmost non-overlapping splitter, so that every definition
  reduces by rfl / decide on concrete inputs.
-/

/-- Model of the loaded pandas DataFrame: column names in order, and the
number of rows.  The pandas shape attribute is the pair
(row count, column count), with the column count equal to the length of the
column list. -/
structure Table where
  columns : List String
  nrows : Nat
deriving DecidableEq

/-- Model of the DataAnalyzer object state: api_key, api_type and the
optional loaded data frame df (None until a file is loaded). -/
structure Analyzer where
  api_key : String
  api_type : String
  df : Option Table
deriving DecidableEq

/-- Model of a Streamlit uploaded file as seen by load_data: its name, and
the outcome of each of the two parsers that may be applied to it
(pd.read_excel and pd.read_csv).  A parser that would raise is modelled by
an error carrying the exception text. -/
structure UploadedFile where
  name : String
  readExcel : Except String Table
  readCsv : Except String Table

/-- Python str.endswith on the character lists of the two strings. -/
def endswith (s suffix : String) : Bool := suffix.data.isSuffixOf s.data

/-- Embedding of DataAnalyzer.load_data.  The Python body is a try block
around an if/elif on the file-name suffix followed by an unconditional
return True; a parse exception is caught, reported, and turns into
return False with self.df untouched (the assignment never happened).
When neither suffix matches, no branch runs and the function still
returns True with self.df untouched. -/
def load_data (a : Analyzer) (file : UploadedFile) : Analyzer × Bool :=
  if endswith file.name ".xlsx" then
    match file.readExcel with
    | .ok t => ({ a with df := some t }, true)
    | .error _ => (a, false)
  else if endswith file.name ".csv" then
    match file.readCsv with
    | .ok t => ({ a with df := some t }, true)
    | .error _ => (a, false)
  else (a, true)

/-- Rendering of the pandas shape tuple inside the f-string of
process_query: str((nrows, ncols)). -/
def shapeRepr (t : Table) : String :=
  "(" ++ toString t.nrows ++ ", " ++ toString t.columns.length ++ ")"

/-- Embedding of the system-prompt f-string built in
DataAnalyzer.process_query: the fixed template with the joined column
names and the shape interpolated. -/
def buildSystemPrompt (t : Table) : String :=
  "你是一个数据分析助手。当前数据集包含以下列：\n"
    ++ String.intercalate ", " t.columns
    ++ "\n数据形状："
    ++ shapeRepr t
    ++ "\n\n你的任务是：\n1. 理解用户的数据分析需求\n2. 生成相应的Python代码\n3. 返回格式化的Markdown代码块，其中包含可执行的Python代码\n\n注意：\n- 使用 \x27df\x27 作为数据框的变量名\n- 对于可视化，使用 plotly.express\n- 代码应该可以直接在Streamlit环境中运行\n- 如果需要显示图表，使用 st.plotly_chart()\n"

/-- Model of a JSON value, as produced by response.json(). -/
inductive Json where
  | jnull
  | jstr (s : String)
  | jnum (q : ℚ)
  | jbool (b : Bool)
  | jarr (elems : List Json)
  | jobj (fields : List (String × Json))

/-- Python subscription resp[key] on a parsed JSON object: KeyError when
the key is absent, TypeError when the value is not an object. -/
def Json.get (j : Json) (key : String) : Except String Json :=
  match j with
  | .jobj fields =>
    match fields.lookup key with
    | some v => .ok v
    | none => .error ("KeyError: " ++ key)
  | _ => .error ("TypeError: value is not subscriptable by " ++ key)

/-- Python subscription resp[i] on a parsed JSON array: IndexError when the
index is out of range, TypeError when the value is not an array. -/
def Json.idx (j : Json) (i : Nat) : Except String Json :=
  match j with
  | .jarr elems =>
    match elems.get? i with
    | some v => .ok v
    | none => .error "IndexError: list index out of range"
  | _ => .error "TypeError: value is not a list"

/-- Reads the final extracted content as a string (the assistant message
content is assumed to be a JSON string). -/
def Json.asString (j : Json) : Except String String :=
  match j with
  | .jstr s => .ok s
  | _ => .error "TypeError: value is not a string"

/-- One message object of the request body. -/
structure Message where
  role : String
  content : String

/-- The JSON request body sent by every provider call: model identifier,
the two messages, and the sampling temperature. -/
structure RequestBody where
  model : String
  messages : List Message
  temperature : ℚ

/-- The two HTTP headers set by every provider call. -/
structure Headers where
  contentType : String
  authorization : String

/-- One outbound HTTP request as built by a provider call. -/
structure Request where
  method : String
  url : String
  headers : Headers
  body : RequestBody

/-- The network oracle: requests.post followed by response.json().  An
error models any exception raised during the call or while parsing the
response body. -/
abbrev Net := Request → Except String Json

/-- Response extraction used by the DeepSeek call:
resp[choices][0][message][content]. -/
def extract_deepseek (j : Json) : Except String String := do
  let c ← j.get "choices"
  let c0 ← c.idx 0
  let m ← c0.get "message"
  let content ← m.get "content"
  content.asString

/-- Response extraction used by the Qwen call:
resp[choices][0][message][content]. -/
def extract_qwen (j : Json) : Except String String := do
  let c ← j.get "choices"
  let c0 ← c.idx 0
  let m ← c0.get "message"
  let content ← m.get "content"
  content.asString

/-- Response extraction used by the Kimi call:
resp[choices][0][message][content]. -/
def extract_kimi (j : Json) : Except String String := do
  let c ← j.get "choices"
  let c0 ← c.idx 0
  let m ← c0.get "message"
  let content ← m.get "content"
  content.asString

/-- Response extraction used by the Doubao call:
resp[choices][0][message][content]. -/
def extract_doubao (j : Json) : Except String String := do
  let c ← j.get "choices"
  let c0 ← c.idx 0
  let m ← c0.get "message"
  let content ← m.get "content"
  content.asString

/-- Response extraction used by the Zhipu call:
resp[choices][0][message][content]. -/
def extract_zhipu (j : Json) : Except String String := do
  let c ← j.get "choices"
  let c0 ← c.idx 0
  let m ← c0.get "message"
  let content ← m.get "content"
  content.asString

/-- The shared chat-completions extraction path
choices[0].message.content, used as the reference point when comparing the
five per-provider extraction functions. -/
def choicesMessageContent (j : Json) : Except String String := do
  let c ← j.get "choices"
  let c0 ← c.idx 0
  let m ← c0.get "message"
  let content ← m.get "content"
  content.asString

/-- The five per-provider response extraction functions, in the order the
providers are listed in the source. -/
def providerExtractors : List (Json → Except String String) :=
  [extract_deepseek, extract_qwen, extract_kimi, extract_doubao, extract_zhipu]

/-- Embedding of DataAnalyzer._call_deepseek: one POST request, then
extraction from the parsed response. -/
def call_deepseek (api_key : String) (net : Net) (system_prompt query : String) :
    List Request × Except String String :=
  let req : Request :=
    { method := "POST"
      url := "https://api.deepseek.com/v1/chat/completions"
      headers := { contentType := "application/json",
                   authorization := "Bearer " ++ api_key }
      body := { model := "deepseek-chat"
                messages := [{ role := "system", content := system_prompt },
                             { role := "user", content := query }]
                temperature := (1 : ℚ) / 10 } }
  ([req], do
    let resp ← net req
    extract_deepseek resp)

/-- Embedding of DataAnalyzer._call_qwen (the active definition, not the
commented-out earlier one): one POST request, then extraction. -/
def call_qwen (api_key : String) (net : Net) (system_prompt query : String) :
    List Request × Except String String :=
  let req : Request :=
    { method := "POST"
      url := "https://dashscope.aliyuncs.com/compatible-mode/v1"
      headers := { contentType := "application/json",
                   authorization := "Bearer " ++ api_key }
      body := { model := "deepseek-r1-distill-qwen-7b"
                messages := [{ role := "system", content := system_prompt },
                             { role := "user", content := query }]
                temperature := (1 : ℚ) / 10 } }
  ([req], do
    let resp ← net req
    extract_qwen resp)

/-- Embedding of DataAnalyzer._call_kimi. -/
def call_kimi (api_key : String) (net : Net) (system_prompt query : String) :
    List Request × Except String String :=
  let req : Request :=
    { method := "POST"
      url := "https://api.moonshot.cn/v1/chat/completions"
      headers := { contentType := "application/json",
                   authorization := "Bearer " ++ api_key }
      body := { model := "moonshot-v1-8k"
                messages := [{ role := "system", content := system_prompt },
                             { role := "user", content := query }]
                temperature := (1 : ℚ) / 10 } }
  ([req], do
    let resp ← net req
    extract_kimi resp)

/-- Embedding of DataAnalyzer._call_doubao. -/
def call_doubao (api_key : String) (net : Net) (system_prompt query : String) :
    List Request × Except String String :=
  let req : Request :=
    { method := "POST"
      url := "https://open.byteflowapi.com/api/v1/chat/completions"
      headers := { contentType := "application/json",
                   authorization := "Bearer " ++ api_key }
      body := { model := "skylark2-pro-4k"
                messages := [{ role := "system", content := system_prompt },
                             { role := "user", content := query }]
                temperature := (1 : ℚ) / 10 } }
  ([req], do
    let resp ← net req
    extract_doubao resp)

/-- Embedding of DataAnalyzer._call_zhipu. -/
def call_zhipu (api_key : String) (net : Net) (system_prompt query : String) :
    List Request × Except String String :=
  let req : Request :=
    { method := "POST"
      url := "https://open.bigmodel.cn/api/paas/v3/chat/completions"
      headers := { contentType := "application/json",
                   authorization := "Bearer " ++ api_key }
      body := { model := "chatglm-pro"
                messages := [{ role := "system", content := system_prompt },
                             { role := "user", content := query }]
                temperature := (1 : ℚ) / 10 } }
  ([req], do
    let resp ← net req
    extract_zhipu resp)

/-- The if/elif dispatch on self.api_type inside the try block of
process_query, before the exception is caught.  An unsupported api_type
issues no request and returns the fixed text. -/
def dispatchRaw (a : Analyzer) (net : Net) (system_prompt query : String) :
    List Request × Except String String :=
  if a.api_type = "DeepSeek" then call_deepseek a.api_key net system_prompt query
  else if a.api_type = "Qwen" then call_qwen a.api_key net system_prompt query
  else if a.api_type = "Kimi" then call_kimi a.api_key net system_prompt query
  else if a.api_type = "豆包" then call_doubao a.api_key net system_prompt query
  else if a.api_type = "智谱" then call_zhipu a.api_key net system_prompt query
  else ([], Except.ok "不支持的API类型")

/-- Embedding of DataAnalyzer.process_query: the df-is-None early return,
the system prompt construction, and the try/except around the provider
dispatch, which turns any exception into the generic failure string.  The
first component is the list of HTTP requests issued during the call. -/
def process_query (a : Analyzer) (net : Net) (query : String) :
    List Request × String :=
  match a.df with
  | none => ([], "请先上传数据文件")
  | some df =>
    let r := dispatchRaw a net (buildSystemPrompt df) query
    (r.1, match r.2 with
      | .ok s => s
      | .error e => "API调用失败: " ++ e)

/-- One chat turn of the session history. -/
structure Turn where
  role : String
  content : String
deriving DecidableEq

/-- Model of st.session_state as used by main: the optional analyzer and
the chat history list. -/
structure SessionState where
  analyzer : Option Analyzer
  chat_history : List Turn

/-- Python list.append on the chat history. -/
def appendTurn (log : List Turn) (t : Turn) : List Turn := log ++ [t]

/-- Embedding of the chat-input handling in main: with no analyzer the
input is rejected and the state is unchanged; otherwise the user turn is
appended, process_query is run, and the assistant turn is appended. -/
def handleInput (st : SessionState) (net : Net) (input : String) : SessionState :=
  match st.analyzer with
  | none => st
  | some a =>
    let h1 := appendTurn st.chat_history { role := "user", content := input }
    let response := (process_query a net input).2
    { st with chat_history := appendTurn h1 { role := "assistant", content := response } }

/-- Index of the leftmost occurrence of sep as a contiguous sublist of s
(the position Python str.find would report), or none when sep does not
occur.  This is the search step of Python str.split and of the Python
substring test used on message contents. -/
def findSub (sep : List Char) : List Char → Option Nat
  | [] => if sep <+: ([] : List Char) then some 0 else none
  | c :: t => if sep <+: (c :: t) then some 0 else (findSub sep t).map (· + 1)

/-- Python substring membership: sep in s. -/
def containsSub (sep s : List Char) : Bool := (findSub sep s).isSome

/-- Fuel-driven worker for the Python str.split model: repeatedly cut at
the leftmost occurrence of the separator.  The fuel only serves to make
the recursion structural, so that concrete evaluations reduce by rfl. -/
def pysplitFuel : Nat → List Char → List Char → List (List Char)
  | 0, _, s => [s]
  | fuel + 1, sep, s =>
    match findSub sep s with
    | none => [s]
    | some i => s.take i :: pysplitFuel fuel sep (s.drop (i + sep.length))

/-- Model of Python str.split(sep) on character lists: leftmost,
non-overlapping cuts at every occurrence of sep. -/
def pysplit (sep s : List Char) : List (List Char) :=
  pysplitFuel (s.length + 1) sep s

theorem findSub_eq_some_iff {sep s : List Char} {i : Nat} :
    findSub sep s = some i ↔ sep <+: s.drop i ∧ ∀ j, j < i → ¬ sep <+: s.drop j := by
  induction s generalizing i with
  | nil =>
    by_cases hp : sep <+: ([] : List Char)
    · simp only [findSub, if_pos hp, List.drop_nil]
      constructor
      · intro h
        cases h
        exact ⟨hp, fun j hj => absurd hj (Nat.not_lt_zero j)⟩
      · rintro ⟨-, hmin⟩
        rcases Nat.eq_zero_or_pos i with rfl | hi
        · rfl
        · exact absurd hp (hmin 0 hi)
    · simp only [findSub, if_neg hp, List.drop_nil]
      constructor
      · intro h
        cases h
      · rintro ⟨hpre, -⟩
        exact absurd hpre hp
  | cons c t ih =>
    by_cases hp : sep <+: (c :: t)
    · simp only [findSub, if_pos hp]
      constructor
      · intro h
        cases h
        exact ⟨hp, fun j hj => absurd hj (Nat.not_lt_zero j)⟩
      · rintro ⟨-, hmin⟩
        rcases Nat.eq_zero_or_pos i with rfl | hi
        · rfl
        · exact absurd hp (by simpa using hmin 0 hi)
    · simp only [findSub, if_neg hp, Option.map_eq_some']
      cases i with
      | zero =>
        constructor
        · rintro ⟨a, -, ha⟩
          exact absurd ha (Nat.succ_ne_zero a)
        · rintro ⟨hpre, -⟩
          exact absurd (by simpa using hpre) hp
      | succ i' =>
        constructor
        · rintro ⟨a, hfind, ha⟩
          obtain rfl : a = i' := by omega
          obtain ⟨h1, h2⟩ := ih.mp hfind
          refine ⟨by simpa using h1, ?_⟩
          intro j hj
          cases j with
          | zero => simpa using hp
          | succ j' => simpa using h2 j' (by omega)
        · rintro ⟨h1, h2⟩
          refine ⟨i', ih.mpr ⟨by simpa using h1, ?_⟩, rfl⟩
          intro j hj
          have := h2 (j + 1) (by omega)
          simpa using this

theorem findSub_eq_none_iff {sep s : List Char} :
    findSub sep s = none ↔ ∀ j, ¬ sep <+: s.drop j := by
  induction s with
  | nil =>
    by_cases hp : sep <+: ([] : List Char)
    · simp [findSub, if_pos hp, List.drop_nil, hp]
    · simp [findSub, if_neg hp, List.drop_nil, hp]
  | cons c t ih =>
    by_cases hp : sep <+: (c :: t)
    · simp only [findSub, if_pos hp]
      constructor
      · intro h
        cases h
      · intro h
        exact absurd hp (by simpa using h 0)
    · simp only [findSub, if_neg hp, Option.map_eq_none']
      rw [ih]
      constructor
      · intro h j
        cases j with
        | zero => simpa using hp
        | succ j' => simpa using h j'
      · intro h j
        have := h (j + 1)
        simpa using this

theorem findSub_some_bound {sep s : List Char} {i : Nat} (h : findSub sep s = some i) :
    i + sep.length ≤ s.length := by
  obtain ⟨h1, hmin⟩ := findSub_eq_some_iff.mp h
  by_cases hsep : sep = []
  · subst hsep
    rcases Nat.eq_zero_or_pos i with rfl | hi
    · simp
    · exact absurd List.nil_prefix (hmin 0 hi)
  · have hne : s.drop i ≠ [] := by
      intro hd
      exact hsep (List.prefix_nil.mp (hd ▸ h1))
    have hi : i < s.length := by
      by_contra hle
      exact hne (List.drop_eq_nil_iff.mpr (by omega))
    have hlen := h1.length_le
    rw [List.length_drop] at hlen
    omega

theorem pysplitFuel_congr {sep : List Char} (hsep : sep ≠ []) :
    ∀ f1 f2 s, s.length < f1 → s.length < f2 →
      pysplitFuel f1 sep s = pysplitFuel f2 sep s := by
  intro f1
  induction f1 with
  | zero =>
    intro f2 s h1 _
    exact absurd h1 (Nat.not_lt_zero _)
  | succ a ih =>
    intro f2 s h1 h2
    cases f2 with
    | zero => exact absurd h2 (Nat.not_lt_zero _)
    | succ b =>
      simp only [pysplitFuel]
      cases hfind : findSub sep s with
      | none => rfl
      | some i =>
        have hbound := findSub_some_bound hfind
        have hslen : 0 < sep.length := List.length_pos.mpr hsep
        show List.take i s :: pysplitFuel a sep (List.drop (i + sep.length) s)
            = List.take i s :: pysplitFuel b sep (List.drop (i + sep.length) s)
        rw [ih b (s.drop (i + sep.length)) (by rw [List.length_drop]; omega)
          (by rw [List.length_drop]; omega)]

theorem pysplit_eq_of_none {sep s : List Char} (h : findSub sep s = none) :
    pysplit sep s = [s] := by
  simp [pysplit, pysplitFuel, h]

theorem pysplit_eq_of_some {sep s : List Char} {i : Nat} (hsep : sep ≠ [])
    (h : findSub sep s = some i) :
    pysplit sep s = s.take i :: pysplit sep (s.drop (i + sep.length)) := by
  have hbound := findSub_some_bound h
  have hslen : 0 < sep.length := List.length_pos.mpr hsep
  show pysplitFuel (s.length + 1) sep s = _
  rw [show pysplitFuel (s.length + 1) sep s
      = s.take i :: pysplitFuel s.length sep (s.drop (i + sep.length)) from by
    simp [pysplitFuel, h]]
  congr 1
  exact pysplitFuel_congr hsep s.length ((s.drop (i + sep.length)).length + 1)
    (s.drop (i + sep.length)) (by rw [List.length_drop]; omega) (by omega)

/-- The opening delimiter the rendering loop searches for in an assistant
message. -/
def fenceOpen : List Char := "```python".data

/-- The closing delimiter used for the second split. -/
def fenceClose : List Char := "```".data

/-- The code text the rendering loop computes from a message content:
content.split on the opening delimiter, element 1, then split on the
closing delimiter, element 0. -/
def extractCode (content : List Char) : List Char :=
  (pysplit fenceClose ((pysplit fenceOpen content).getD 1 [])).getD 0 []

/-- The code a rendered turn executes, if any: only assistant turns whose
content contains the opening delimiter reach the extraction and the exec
call. -/
def executedCode (m : Turn) : Option (List Char) :=
  if m.role = "assistant" ∧ containsSub fenceOpen m.content.data then
    some (extractCode m.content.data)
  else none

/-- Outcome of the per-turn try/except around exec in the rendering
loop. -/
inductive ExecResult where
  | noExec
  | ran (code : List Char)
  | failed (code : List Char) (errText : String)
deriving DecidableEq

/-- Rendering of one chat turn: the markdown shown is the turn content,
and when a code block is present the extracted code is executed under the
run oracle, with an exception turned into the inline error string. -/
def renderTurn (run : List Char → Except String Unit) (m : Turn) :
    String × ExecResult :=
  (m.content,
    match executedCode m with
    | none => ExecResult.noExec
    | some code =>
      match run code with
      | .ok _ => ExecResult.ran code
      | .error e => ExecResult.failed code ("代码执行错误: " ++ e))

/-- The chat-history rendering loop at the bottom of main: every turn of
the history is rendered in order. -/
def renderHistory (run : List Char → Except String Unit) (history : List Turn) :
    List (String × ExecResult) :=
  history.map (renderTurn run)

/-- C1: for every provider identifier in the closed set of five, dispatching
a query constructs exactly one HTTP POST request whose JSON body has the
shape of model, the two system and user messages, and temperature 0.1, with
headers Content-Type: application/json and Authorization: Bearer credential,
and issues exactly one attempt per call (no retry): the list of issued
requests is exactly the one request with the configured model identifier and
endpoint of that provider. -/
theorem C1_dispatch_request_shape (p model url : String)
    (hp : (p, model, url) ∈ [
      ("DeepSeek", "deepseek-chat", "https://api.deepseek.com/v1/chat/completions"),
      ("Qwen", "deepseek-r1-distill-qwen-7b", "https://dashscope.aliyuncs.com/compatible-mode/v1"),
      ("Kimi", "moonshot-v1-8k", "https://api.moonshot.cn/v1/chat/completions"),
      ("豆包", "skylark2-pro-4k", "https://open.byteflowapi.com/api/v1/chat/completions"),
      ("智谱", "chatglm-pro", "https://open.bigmodel.cn/api/paas/v3/chat/completions")])
    (key q : String) (t : Table) (net : Net) :
    (process_query ⟨key, p, some t⟩ net q).1 =
      [{ method := "POST", url := url,
         headers := { contentType := "application/json",
                      authorization := "Bearer " ++ key },
         body := { model := model,
                   messages := [{ role := "system", content := buildSystemPrompt t },
                                { role := "user", content := q }],
                   temperature := (1 : ℚ) / 10 } }] := by
  simp only [List.mem_cons, List.not_mem_nil, or_false, Prod.mk.injEq] at hp
  rcases hp with ⟨rfl, rfl, rfl⟩ | ⟨rfl, rfl, rfl⟩ | ⟨rfl, rfl, rfl⟩
    | ⟨rfl, rfl, rfl⟩ | ⟨rfl, rfl, rfl⟩ <;> rfl

/-- Witness for C1 at the DeepSeek provider with a concrete key, table,
query and a network oracle. -/
theorem C1_dispatch_request_shape_witness :
    ("DeepSeek", "deepseek-chat", "https://api.deepseek.com/v1/chat/completions") ∈ [
      ("DeepSeek", "deepseek-chat", "https://api.deepseek.com/v1/chat/completions"),
      ("Qwen", "deepseek-r1-distill-qwen-7b", "https://dashscope.aliyuncs.com/compatible-mode/v1"),
      ("Kimi", "moonshot-v1-8k", "https://api.moonshot.cn/v1/chat/completions"),
      ("豆包", "skylark2-pro-4k", "https://open.byteflowapi.com/api/v1/chat/completions"),
      ("智谱", "chatglm-pro", "https://open.bigmodel.cn/api/paas/v3/chat/completions")] ∧
    (process_query ⟨"secret", "DeepSeek", some ⟨["A", "B"], 10⟩⟩
        (fun _ => Except.error "down") "plot A by B").1 =
      [{ method := "POST", url := "https://api.deepseek.com/v1/chat/completions",
         headers := { contentType := "application/json",
                      authorization := "Bearer " ++ "secret" },
         body := { model := "deepseek-chat",
                   messages := [{ role := "system", content := buildSystemPrompt ⟨["A", "B"], 10⟩ },
                                { role := "user", content := "plot A by B" }],
                   temperature := (1 : ℚ) / 10 } }] :=
  ⟨by decide,
    C1_dispatch_request_shape "DeepSeek" "deepseek-chat"
      "https://api.deepseek.com/v1/chat/completions" (by decide)
      "secret" "plot A by B" ⟨["A", "B"], 10⟩ (fun _ => Except.error "down")⟩

/-- C2 counterexample: it is not the case that exactly one of the five
per-provider response extractions differs from the shared path
choices[0].message.content — in the source all five are the same
extraction. -/
theorem C2_counterexample :
    ¬ ∃ i : Fin providerExtractors.length,
        providerExtractors.get i ≠ choicesMessageContent ∧
        ∀ j : Fin providerExtractors.length, j ≠ i →
          providerExtractors.get j = choicesMessageContent := by
  rintro ⟨i, hne, -⟩
  apply hne
  fin_cases i <;> rfl

/-- C2 amended: all five providers extract the assistant text via the same
JSON path choices[0].message.content. -/
theorem C2_all_extractors_shared_path (f : Json → Except String String)
    (hf : f ∈ providerExtractors) : f = choicesMessageContent := by
  rcases hf with _ | ⟨_, _ | ⟨_, _ | ⟨_, _ | ⟨_, _ | ⟨_, h⟩⟩⟩⟩⟩ <;> first | rfl | cases h

/-- Witness for the amended C2 at the Qwen extractor, the provider the
original claim singled out as using a different path. -/
theorem C2_all_extractors_shared_path_witness :
    extract_qwen ∈ providerExtractors ∧ extract_qwen = choicesMessageContent :=
  ⟨List.mem_cons_of_mem _ (List.mem_cons_self _ _),
    C2_all_extractors_shared_path extract_qwen
      (List.mem_cons_of_mem _ (List.mem_cons_self _ _))⟩

/-- C3: for every provider identifier not in the closed set of five,
dispatching a query (with a table loaded) returns the fixed
unsupported-type text rather than an error, and issues no HTTP request. -/
theorem C3_unsupported_provider (key p q : String) (t : Table) (net : Net)
    (hp : p ∉ (["DeepSeek", "Qwen", "Kimi", "豆包", "智谱"] : List String)) :
    process_query ⟨key, p, some t⟩ net q = ([], "不支持的API类型") := by
  simp only [List.mem_cons, List.not_mem_nil, or_false, not_or] at hp
  obtain ⟨h1, h2, h3, h4, h5⟩ := hp
  simp [process_query, dispatchRaw, h1, h2, h3, h4, h5]

/-- Witness for C3 at the unsupported identifier GPT. -/
theorem C3_unsupported_provider_witness :
    ("GPT" ∉ (["DeepSeek", "Qwen", "Kimi", "豆包", "智谱"] : List String)) ∧
    process_query ⟨"k", "GPT", some ⟨["A"], 1⟩⟩ (fun _ => Except.error "down") "hi"
      = ([], "不支持的API类型") :=
  ⟨by decide,
    C3_unsupported_provider "k" "GPT" "hi" ⟨["A"], 1⟩
      (fun _ => Except.error "down") (by decide)⟩

/-- C4: for every query and every supported provider, if the dispatch ends
in an exception (network failure, response-parsing failure, or a missing
field during extraction), process_query does not raise: it returns the
generic failure string embedding the underlying exception text. -/
theorem C4_exception_caught (key p q e : String) (t : Table) (net : Net)
    (_hp : p ∈ (["DeepSeek", "Qwen", "Kimi", "豆包", "智谱"] : List String))
    (herr : (dispatchRaw ⟨key, p, some t⟩ net (buildSystemPrompt t) q).2
      = Except.error e) :
    (process_query ⟨key, p, some t⟩ net q).2 = "API调用失败: " ++ e := by
  have hq : process_query ⟨key, p, some t⟩ net q
      = ((dispatchRaw ⟨key, p, some t⟩ net (buildSystemPrompt t) q).1,
         match (dispatchRaw ⟨key, p, some t⟩ net (buildSystemPrompt t) q).2 with
         | .ok s => s
         | .error e => "API调用失败: " ++ e) := rfl
  rw [hq, herr]

/-- Witness for C4: a concrete network oracle refusing the connection for
the DeepSeek provider. -/
theorem C4_exception_caught_witness :
    ("DeepSeek" ∈ (["DeepSeek", "Qwen", "Kimi", "豆包", "智谱"] : List String)) ∧
    (dispatchRaw ⟨"k", "DeepSeek", some ⟨["A"], 1⟩⟩
        (fun _ => Except.error "Connection refused")
        (buildSystemPrompt ⟨["A"], 1⟩) "hi").2 = Except.error "Connection refused" ∧
    (process_query ⟨"k", "DeepSeek", some ⟨["A"], 1⟩⟩
        (fun _ => Except.error "Connection refused") "hi").2
      = "API调用失败: " ++ "Connection refused" :=
  ⟨by decide, rfl,
    C4_exception_caught "k" "DeepSeek" "hi" "Connection refused" ⟨["A"], 1⟩
      (fun _ => Except.error "Connection refused") (by decide) rfl⟩

/-- C5: for every uploaded file whose parsing raises an exception in the
branch selected by its extension, load_data returns false and leaves the
whole analyzer — in particular its current table — exactly as it was. -/
theorem C5_load_failure_atomic (a : Analyzer) (file : UploadedFile) (e : String)
    (h : (endswith file.name ".xlsx" = true ∧ file.readExcel = Except.error e) ∨
         (endswith file.name ".xlsx" = false ∧ endswith file.name ".csv" = true ∧
          file.readCsv = Except.error e)) :
    load_data a file = (a, false) := by
  rcases h with ⟨h1, h2⟩ | ⟨h1, h2, h3⟩
  · simp [load_data, h1, h2]
  · simp [load_data, h1, h2, h3]

/-- Witness for C5: an xlsx-named file whose spreadsheet parse raises. -/
theorem C5_load_failure_atomic_witness :
    ((endswith "data.xlsx" ".xlsx" = true ∧
      (Except.error "bad file" : Except String Table) = Except.error "bad file") ∨
     (endswith "data.xlsx" ".xlsx" = false ∧ endswith "data.xlsx" ".csv" = true ∧
      (Except.ok (⟨[], 0⟩ : Table) : Except String Table) = Except.error "bad file")) ∧
    load_data ⟨"k", "DeepSeek", none⟩
        ⟨"data.xlsx", Except.error "bad file", Except.ok ⟨[], 0⟩⟩
      = (⟨"k", "DeepSeek", none⟩, false) :=
  ⟨Or.inl ⟨by decide, rfl⟩,
    C5_load_failure_atomic ⟨"k", "DeepSeek", none⟩
      ⟨"data.xlsx", Except.error "bad file", Except.ok ⟨[], 0⟩⟩ "bad file"
      (Or.inl ⟨by decide, rfl⟩)⟩

/-- C10: for every uploaded file whose name ends in neither recognized
extension, load_data returns true while leaving the analyzer — hence the
session table — unchanged: no data is loaded and no error is reported. -/
theorem C10_unrecognized_extension_returns_true (a : Analyzer) (file : UploadedFile)
    (h1 : endswith file.name ".xlsx" = false)
    (h2 : endswith file.name ".csv" = false) :
    load_data a file = (a, true) := by
  simp [load_data, h1, h2]

/-- Witness for C10: a txt-named file. -/
theorem C10_unrecognized_extension_returns_true_witness :
    endswith "data.txt" ".xlsx" = false ∧ endswith "data.txt" ".csv" = false ∧
    load_data ⟨"k", "DeepSeek", none⟩
        ⟨"data.txt", Except.error "bad", Except.error "bad"⟩
      = (⟨"k", "DeepSeek", none⟩, true) :=
  ⟨by decide, by decide,
    C10_unrecognized_extension_returns_true ⟨"k", "DeepSeek", none⟩
      ⟨"data.txt", Except.error "bad", Except.error "bad"⟩ (by decide) (by decide)⟩

/-- C9: the system prompt is a pure function of the table column names and
row/column counts: it contains the column names joined in order and the
shape rendering, and two tables with equal column lists and equal shapes
produce identical prompts. -/
theorem C9_system_prompt_pure :
    (∀ t : Table, ∃ s1 s2 s3 : String,
        buildSystemPrompt t
          = s1 ++ String.intercalate ", " t.columns ++ s2 ++ shapeRepr t ++ s3) ∧
    (∀ t1 t2 : Table, t1.columns = t2.columns → t1.nrows = t2.nrows →
        buildSystemPrompt t1 = buildSystemPrompt t2) := by
  constructor
  · intro t
    exact ⟨"你是一个数据分析助手。当前数据集包含以下列：\n", "\n数据形状：",
      "\n\n你的任务是：\n1. 理解用户的数据分析需求\n2. 生成相应的Python代码\n3. 返回格式化的Markdown代码块，其中包含可执行的Python代码\n\n注意：\n- 使用 \x27df\x27 作为数据框的变量名\n- 对于可视化，使用 plotly.express\n- 代码应该可以直接在Streamlit环境中运行\n- 如果需要显示图表，使用 st.plotly_chart()\n",
      rfl⟩
  · intro t1 t2 hc hn
    simp [buildSystemPrompt, shapeRepr, hc, hn]

/-- Witness for C9 at two concrete equal-shape tables. -/
theorem C9_system_prompt_pure_witness :
    (⟨["A", "B"], 3⟩ : Table).columns = (⟨["A", "B"], 3⟩ : Table).columns ∧
    (⟨["A", "B"], 3⟩ : Table).nrows = (⟨["A", "B"], 3⟩ : Table).nrows ∧
    buildSystemPrompt ⟨["A", "B"], 3⟩ = buildSystemPrompt ⟨["A", "B"], 3⟩ :=
  ⟨rfl, rfl, C9_system_prompt_pure.2 ⟨["A", "B"], 3⟩ ⟨["A", "B"], 3⟩ rfl rfl⟩

theorem drop_len2_append {p q r : List Char} :
    (p ++ (q ++ r)).drop (p.length + q.length) = r := by
  rw [← List.append_assoc, ← List.length_append]
  exact List.drop_left (p ++ q) r

theorem prefix_take_of_le {l1 l2 : List Char} {n : Nat} (h : l1 <+: l2)
    (hn : l1.length ≤ n) : l1 <+: l2.take n := by
  obtain ⟨t, rfl⟩ := h
  rw [List.take_append_eq_append_take, List.take_of_length_le hn]
  exact List.prefix_append _ _

theorem prefix_of_prefix_take {l1 l2 : List Char} {n : Nat}
    (h : l1 <+: l2.take n) : l1 <+: l2 :=
  h.trans (List.take_prefix n l2)

/-- When the leftmost occurrence of sep in l ++ r sits exactly at the
boundary, sep does not occur inside l at all. -/
theorem findSub_none_of_append_some {sep l r : List Char} (hsep : sep ≠ [])
    (h : findSub sep (l ++ r) = some l.length) : findSub sep l = none := by
  rw [findSub_eq_none_iff]
  intro j hj
  have hjlt : j < l.length := by
    have hne : l.drop j ≠ [] := fun hd => hsep (List.prefix_nil.mp (hd ▸ hj))
    by_contra hle
    exact hne (List.drop_eq_nil_iff.mpr (by omega))
  obtain ⟨-, hmin⟩ := findSub_eq_some_iff.mp h
  refine hmin j hjlt ?_
  rw [List.drop_append_eq_append_drop, Nat.sub_eq_zero_of_le (le_of_lt hjlt),
    List.drop_zero]
  exact hj.trans (List.prefix_append _ _)

/-- C6 counterexample: the assistant content below decomposes as
pre ++ open-fence ++ mid ++ close-fence ++ post with pre empty and
mid = A, and indeed the open fence first occurs at position 0 and the
close fence first occurs in the remainder right after mid — so the
substring between the first open fence and the next close fence is A —
yet the code the rendering loop executes is the longer text A` (a later
open-fence occurrence begins inside the close fence, and the split-based
extraction cuts elsewhere). -/
theorem C6_counterexample :
    executedCode ⟨"assistant", "```pythonA````python"⟩ = some "A`".data ∧
    "```pythonA````python".data
      = [] ++ (fenceOpen ++ ("A".data ++ (fenceClose ++ "`python".data))) ∧
    findSub fenceOpen "```pythonA````python".data = some ([] : List Char).length ∧
    findSub fenceClose ("A".data ++ (fenceClose ++ "`python".data))
      = some "A".data.length ∧
    executedCode ⟨"assistant", "```pythonA````python"⟩ ≠ some "A".data :=
  ⟨by decide, by decide, by decide, by decide, by decide⟩

/-- C6 amended: for every assistant turn whose content contains the open
fence, decomposed around the first open fence and the next close fence,
the executed text is precisely the text between those two fences —
provided no later open-fence occurrence begins strictly inside that close
fence (the counterexample shows the proviso is necessary); and for every
turn that is not an assistant turn or whose content has no open fence, no
execution occurs. -/
theorem C6_fence_extraction_amended :
    (∀ (m : Turn) (pre mid post : List Char),
        m.role = "assistant" →
        m.content.data = pre ++ (fenceOpen ++ (mid ++ (fenceClose ++ post))) →
        findSub fenceOpen m.content.data = some pre.length →
        findSub fenceClose (mid ++ (fenceClose ++ post)) = some mid.length →
        (findSub fenceOpen (mid ++ (fenceClose ++ post)) = none ∨
         findSub fenceOpen (mid ++ (fenceClose ++ post)) = some mid.length ∨
         (∃ k, findSub fenceOpen (mid ++ (fenceClose ++ post)) = some k ∧
               mid.length + fenceClose.length ≤ k)) →
        executedCode m = some mid) ∧
    (∀ m : Turn,
        (m.role ≠ "assistant" ∨ containsSub fenceOpen m.content.data = false) →
        executedCode m = none) := by
  have hopen_ne : fenceOpen ≠ [] := by decide
  have hclose_ne : fenceClose ≠ [] := by decide
  constructor
  · intro m pre mid post hrole hc h1 h2 h3
    have hcond : m.role = "assistant" ∧ containsSub fenceOpen m.content.data :=
      ⟨hrole, by show (findSub fenceOpen m.content.data).isSome = true; rw [h1]; rfl⟩
    have hexec : executedCode m = some (extractCode m.content.data) := by
      rw [executedCode, if_pos hcond]
    rw [hexec]
    congr 1
    -- the first split cuts off pre and leaves the remainder after the open fence
    have e1 : pysplit fenceOpen m.content.data
        = pre :: pysplit fenceOpen (mid ++ (fenceClose ++ post)) := by
      rw [pysplit_eq_of_some hopen_ne h1, hc]
      congr 1
      · exact List.take_left pre _
      · congr 1
        exact drop_len2_append
    have e2 : (pysplit fenceOpen m.content.data).getD 1 []
        = (pysplit fenceOpen (mid ++ (fenceClose ++ post))).getD 0 [] := by
      rw [e1]
      rfl
    obtain ⟨hpre2, hmin2⟩ := findSub_eq_some_iff.mp h2
    rcases h3 with h | h | ⟨k, hk, hkge⟩
    · -- no later open fence: element 1 is the whole remainder
      have e3 : (pysplit fenceOpen (mid ++ (fenceClose ++ post))).getD 0 []
          = mid ++ (fenceClose ++ post) := by
        rw [pysplit_eq_of_none h]
        rfl
      rw [extractCode, e2, e3, pysplit_eq_of_some hclose_ne h2]
      exact List.take_left mid _
    · -- the next open fence starts exactly at the close fence
      have e3 : (pysplit fenceOpen (mid ++ (fenceClose ++ post))).getD 0 [] = mid := by
        rw [pysplit_eq_of_some hopen_ne h]
        exact List.take_left mid _
      have hnone : findSub fenceClose mid = none :=
        findSub_none_of_append_some hclose_ne h2
      rw [extractCode, e2, e3, pysplit_eq_of_none hnone]
      rfl
    · -- the next open fence starts at or after the end of the close fence
      have e3 : (pysplit fenceOpen (mid ++ (fenceClose ++ post))).getD 0 []
          = (mid ++ (fenceClose ++ post)).take k := by
        rw [pysplit_eq_of_some hopen_ne hk]
        rfl
      have hfind : findSub fenceClose ((mid ++ (fenceClose ++ post)).take k)
          = some mid.length := by
        rw [findSub_eq_some_iff]
        constructor
        · rw [List.drop_take]
          exact prefix_take_of_le hpre2 (by omega)
        · intro j hj habs
          rw [List.drop_take] at habs
          exact hmin2 j hj (prefix_of_prefix_take habs)
      rw [extractCode, e2, e3, pysplit_eq_of_some hclose_ne hfind]
      show ((mid ++ (fenceClose ++ post)).take k).take mid.length = mid
      rw [List.take_take, min_eq_left (by omega)]
      exact List.take_left mid _
  · intro m h
    rcases h with h | h
    · simp [executedCode, h]
    · have hnone : findSub fenceOpen m.content.data = none := by
        cases hfo : findSub fenceOpen m.content.data with
        | none => rfl
        | some i =>
          rw [containsSub, hfo] at h
          cases h
      simp [executedCode, containsSub, hnone]

/-- Witness for the amended C6 at a concrete well-formed assistant turn. -/
theorem C6_fence_extraction_amended_witness :
    ((⟨"assistant", "```pythonAB```"⟩ : Turn).role = "assistant") ∧
    "```pythonAB```".data
      = [] ++ (fenceOpen ++ ("AB".data ++ (fenceClose ++ []))) ∧
    findSub fenceOpen "```pythonAB```".data = some ([] : List Char).length ∧
    findSub fenceClose ("AB".data ++ (fenceClose ++ [])) = some "AB".data.length ∧
    findSub fenceOpen ("AB".data ++ (fenceClose ++ [])) = none ∧
    executedCode ⟨"assistant", "```pythonAB```"⟩ = some "AB".data :=
  ⟨rfl, by decide, by decide, by decide, by decide,
    C6_fence_extraction_amended.1 ⟨"assistant", "```pythonAB```"⟩ [] "AB".data []
      rfl (by decide) (by decide) (by decide) (Or.inl (by decide))⟩

/-- C7: when the code extracted from one turn raises during execution, the
exception is caught and rendered as the inline error string for that turn
only, and every turn after it in the history is still rendered exactly as
it would be on its own. -/
theorem C7_exec_error_isolated (run : List Char → Except String Unit)
    (pre post : List Turn) (m : Turn) (code : List Char) (e : String)
    (hm : executedCode m = some code) (hrun : run code = Except.error e) :
    renderHistory run (pre ++ m :: post)
      = renderHistory run pre
          ++ (m.content, ExecResult.failed code ("代码执行错误: " ++ e))
            :: renderHistory run post := by
  simp [renderHistory, renderTurn, hm, hrun]

/-- Witness for C7: a failing execution in the middle of a four-turn
history. -/
theorem C7_exec_error_isolated_witness :
    executedCode ⟨"assistant", "```pythonboom```"⟩ = some "boom".data ∧
    ((fun _ => Except.error "NameError") : List Char → Except String Unit)
        "boom".data = Except.error "NameError" ∧
    renderHistory (fun _ => Except.error "NameError")
        ([⟨"user", "draw"⟩] ++ ⟨"assistant", "```pythonboom```"⟩
          :: [⟨"user", "next"⟩, ⟨"assistant", "ok"⟩])
      = renderHistory (fun _ => Except.error "NameError") [⟨"user", "draw"⟩]
          ++ ((⟨"assistant", "```pythonboom```"⟩ : Turn).content,
              ExecResult.failed "boom".data ("代码执行错误: " ++ "NameError"))
            :: renderHistory (fun _ => Except.error "NameError")
                [⟨"user", "next"⟩, ⟨"assistant", "ok"⟩] :=
  ⟨by decide, rfl,
    C7_exec_error_isolated (fun _ => Except.error "NameError")
      [⟨"user", "draw"⟩] [⟨"user", "next"⟩, ⟨"assistant", "ok"⟩]
      ⟨"assistant", "```pythonboom```"⟩ "boom".data "NameError" (by decide) rfl⟩

/-- C8: the chat log is append-only and order-preserving — folding any
sequence of appends over any starting log yields exactly the starting log
followed by the appended turns in order — and each processed user input
with a configured analyzer appends exactly two turns: the user turn, then
the assistant turn carrying the process_query response. -/
theorem C8_chat_log_append_only :
    (∀ (log ts : List Turn), List.foldl appendTurn log ts = log ++ ts) ∧
    (∀ (st : SessionState) (a : Analyzer) (net : Net) (input : String),
        st.analyzer = some a →
        (handleInput st net input).chat_history
          = st.chat_history
              ++ [{ role := "user", content := input },
                  { role := "assistant",
                    content := (process_query a net input).2 }]) := by
  constructor
  · intro log ts
    induction ts generalizing log with
    | nil => simp
    | cons t ts ih => simp [appendTurn, ih]
  · intro st a net input h
    simp [handleInput, h, appendTurn]

/-- Witness for C8 at a concrete session state with a configured analyzer
and an empty history. -/
theorem C8_chat_log_append_only_witness :
    ((⟨some ⟨"k", "DeepSeek", some ⟨["A"], 1⟩⟩, []⟩ : SessionState).analyzer
        = some ⟨"k", "DeepSeek", some ⟨["A"], 1⟩⟩) ∧
    (handleInput ⟨some ⟨"k", "DeepSeek", some ⟨["A"], 1⟩⟩, []⟩
        (fun _ => Except.error "down") "hi").chat_history
      = ([] : List Turn)
          ++ [{ role := "user", content := "hi" },
              { role := "assistant",
                content := (process_query ⟨"k", "DeepSeek", some ⟨["A"], 1⟩⟩
                  (fun _ => Except.error "down") "hi").2 }] :=
  ⟨rfl,
    C8_chat_log_append_only.2 ⟨some ⟨"k", "DeepSeek", some ⟨["A"], 1⟩⟩, []⟩
      ⟨"k", "DeepSeek", some ⟨["A"], 1⟩⟩ (fun _ => Except.error "down") "hi" rfl⟩
